import Mathlib

/-!
Shallow embedding of the ADS1015 IIO driver (`ti-ads1015.c`) and proofs
about its acquisition engine: configuration reconciliation, settling-delay
computation, the buffered-capture fast path, the unit translator
(scale / sample-rate setters and getters) and the power-state hooks.

Registers are modelled as an abstract register device (a value map plus a
per-address fault model for reads and writes); the driver's state struct
`ads1015_data` is modelled by `AdsState`.  Machine integers are modelled by
`Nat` / `Int`; the driver only ever writes 16-bit values, so no wrap-around
arises on the modelled paths.
-/

/-! ### Constants from the source -/

-- error numbers from errno.h, used by the driver as negative returns
def EINVAL : Int := 22
def EAGAIN : Int := 11

-- return-type tags from linux/iio/types.h
def IIO_VAL_INT : Int := 1
def IIO_VAL_FRACTIONAL_LOG2 : Int := 11

def USEC_PER_SEC : Nat := 1000000

-- register addresses
def ADS1015_CONV_REG : Nat := 0x00
def ADS1015_CFG_REG : Nat := 0x01
def ADS1015_LO_THRESH_REG : Nat := 0x02
def ADS1015_HI_THRESH_REG : Nat := 0x03

-- GENMASK(h, l) is the mask with bits l..h set; BIT n is bit n
def GENMASK (h l : Nat) : Nat := 2 ^ (h + 1) - 2 ^ l
def BIT (n : Nat) : Nat := 2 ^ n

def ADS1015_CFG_COMP_QUE_SHIFT : Nat := 0
def ADS1015_CFG_DR_SHIFT : Nat := 5
def ADS1015_CFG_MOD_SHIFT : Nat := 8
def ADS1015_CFG_PGA_SHIFT : Nat := 9
def ADS1015_CFG_MUX_SHIFT : Nat := 12

def ADS1015_CFG_COMP_QUE_MASK : Nat := GENMASK 1 0
def ADS1015_CFG_DR_MASK : Nat := GENMASK 7 5
def ADS1015_CFG_MOD_MASK : Nat := BIT 8
def ADS1015_CFG_PGA_MASK : Nat := GENMASK 11 9
def ADS1015_CFG_MUX_MASK : Nat := GENMASK 14 12

-- comparator queue disable field value (defined at lines 62-63 of the source)
def ADS1015_CFG_COMP_DISABLE : Nat := 3

-- device operating modes
def ADS1015_CONTINUOUS : Nat := 0
def ADS1015_SINGLESHOT : Nat := 1

-- number of configurable channels, from linux/platform_data/ads1015.h
-- (4 differential pairs + 4 single-ended inputs)
def ADS1015_CHANNELS : Nat := 8

-- the C `~mask` complement on a 32-bit unsigned int
def compl32 (mask : Nat) : Nat := 0xFFFFFFFF ^^^ mask

-- DIV_ROUND_UP(n, d) = (n + d - 1) / d from the kernel headers
def DIV_ROUND_UP (n d : Nat) : Nat := (n + d - 1) / d

/-! ### Immutable tables -/

def ads1015_data_rate : Nat → Nat := fun i =>
  [128, 250, 490, 920, 1600, 2400, 3300, 3300].getD i 0

def ads1115_data_rate : Nat → Nat := fun i =>
  [8, 16, 32, 64, 128, 250, 475, 860].getD i 0

def ads1015_fullscale_range : Nat → Int := fun i =>
  [(6144 : Int), 4096, 2048, 1024, 512, 256, 256, 256].getD i 0

/-! ### Register device model

An abstract register device: a map from address to current 16-bit value,
plus a fault model saying which addresses fail on read or on write and
with which (negative) error code.  `regmap_read` and `regmap_write` mirror
the driver's use of the kernel regmap API; `regmap_update_bits` performs
the kernel's read-modify-conditional-write. -/

structure Regmap where
  regs : Nat → Nat
  readErr : Nat → Option Int
  writeErr : Nat → Option Int

def regmap_read (rm : Regmap) (addr : Nat) : Except Int Nat :=
  match rm.readErr addr with
  | some e => .error e
  | none => .ok (rm.regs addr)

def regmap_write (rm : Regmap) (addr : Nat) (v : Nat) : Except Int Regmap :=
  match rm.writeErr addr with
  | some e => .error e
  | none => .ok { rm with regs := fun a => if a = addr then v else rm.regs a }

def regmap_update_bits (rm : Regmap) (addr : Nat) (mask val : Nat) :
    Except Int Regmap :=
  match regmap_read rm addr with
  | .error e => .error e
  | .ok old =>
    let newv := (old &&& compl32 mask) ||| (val &&& mask)
    if newv = old then .ok rm else regmap_write rm addr newv

/-! ### Driver state model -/

structure ChannelData where
  pga : Nat
  data_rate : Nat
deriving Repr, DecidableEq

/-- Model of `struct ads1015_data`: the per-channel configuration store,
the chip-variant rate table pointer, the conversion-validity flag and the
buffered-capture fast-path flag. -/
structure AdsState where
  channel_data : Nat → ChannelData
  data_rate : Nat → Nat
  conv_invalid : Bool
  use_buffer : Bool

/-- Model of `struct iio_chan_spec`: the fields the driver reads. -/
structure ChanSpec where
  address : Nat
  realbits : Nat
  shift : Nat

inductive BusOp where
  | read (addr : Nat)
  | write (addr : Nat) (v : Nat)
deriving Repr, DecidableEq

/-! ### ads1015_get_adc_result (lines 330-368)

The outcome records the returned value or error code, the final driver
state and register device, the total microseconds requested from
`usleep_range` (its lower bound), and the sequence of bus operations
performed. -/

structure AdcRun where
  res : Except Int Nat
  data : AdsState
  rm : Regmap
  sleep_us : Nat
  trace : List BusOp

/-- The merged configuration word built at lines 342-349: the old word
with only the mux, gain and rate fields replaced by the values desired
for channel `c` (taken from `channel_data[c]`). -/
def ads1015_merged_cfg (data : AdsState) (old c : Nat) : Nat :=
  let pga := (data.channel_data c).pga
  let dr := (data.channel_data c).data_rate
  let mask := ADS1015_CFG_MUX_MASK ||| ADS1015_CFG_PGA_MASK |||
    ADS1015_CFG_DR_MASK
  let cfg0 := (c <<< ADS1015_CFG_MUX_SHIFT) |||
    (pga <<< ADS1015_CFG_PGA_SHIFT) ||| (dr <<< ADS1015_CFG_DR_SHIFT)
  (old &&& compl32 mask) ||| (cfg0 &&& mask)

/-- The settling delay of lines 359-362 for old configuration word `old`
and requested channel `c`: one conversion period at the rate encoded in
`old` plus one at the rate stored for `c`, each rounded up, the sum
inflated by 10 percent (`conv_time += conv_time / 10`). -/
def ads1015_settle_us (data : AdsState) (old c : Nat) : Nat :=
  let dr_old := (old &&& ADS1015_CFG_DR_MASK) >>> ADS1015_CFG_DR_SHIFT
  let t := DIV_ROUND_UP USEC_PER_SEC (data.data_rate dr_old) +
    DIV_ROUND_UP USEC_PER_SEC (data.data_rate ((data.channel_data c).data_rate))
  t + t / 10

def ads1015_get_adc_result (data : AdsState) (rm : Regmap) (chan : Int) :
    AdcRun :=
  if chan < 0 ∨ (ADS1015_CHANNELS : Int) ≤ chan then
    ⟨.error (-EINVAL), data, rm, 0, []⟩
  else
    match regmap_read rm ADS1015_CFG_REG with
    | .error e => ⟨.error e, data, rm, 0, [.read ADS1015_CFG_REG]⟩
    | .ok old =>
      let c := chan.toNat
      let cfg := ads1015_merged_cfg data old c
      let write_step : Except Int (Regmap × Bool × List BusOp) :=
        if old ≠ cfg then
          match regmap_write rm ADS1015_CFG_REG cfg with
          | .error e => .error e
          | .ok rm1 => .ok (rm1, true, [.write ADS1015_CFG_REG cfg])
        else .ok (rm, data.conv_invalid, [])
      match write_step with
      | .error e =>
        ⟨.error e, data, rm, 0, [.read ADS1015_CFG_REG]⟩
      | .ok (rm1, inv, wtrace) =>
        let sleep_inv : Nat × Bool :=
          if inv then (ads1015_settle_us data old c, false) else (0, inv)
        let data1 := { data with conv_invalid := sleep_inv.2 }
        match regmap_read rm1 ADS1015_CONV_REG with
        | .error e =>
          ⟨.error e, data1, rm1, sleep_inv.1,
            [BusOp.read ADS1015_CFG_REG] ++ wtrace ++ [BusOp.read ADS1015_CONV_REG]⟩
        | .ok v =>
          ⟨.ok v, data1, rm1, sleep_inv.1,
            [BusOp.read ADS1015_CFG_REG] ++ wtrace ++ [BusOp.read ADS1015_CONV_REG]⟩

/-! ### Unit translator (lines 370-403) -/

-- div_s64 is C signed division, truncating toward zero
def div_s64 (a b : Int) : Int := Int.tdiv a b

/-- The `fullscale` value computed at line 375: the C left shift by
`realbits - 1` is multiplication by `2 ^ (realbits - 1)` and `div_s64`
truncates toward zero. -/
def ads1015_fullscale (chan : ChanSpec) (scale uscale : Int) : Int :=
  div_s64 ((scale * 1000000 + uscale) * 2 ^ (chan.realbits - 1)) 1000000

def ads1015_set_scale (data : AdsState) (chan : ChanSpec)
    (scale uscale : Int) : Int × AdsState :=
  let fullscale : Int := ads1015_fullscale chan scale uscale
  match (List.range 8).find? (fun i => ads1015_fullscale_range i == fullscale) with
  | some i =>
    (0, { data with channel_data := fun c =>
      if c = chan.address then { data.channel_data c with pga := i }
      else data.channel_data c })
  | none => (-EINVAL, data)

def ads1015_set_data_rate (data : AdsState) (chan : Nat) (rate : Nat) :
    Int × AdsState :=
  match (List.range 8).find? (fun i => data.data_rate i == rate) with
  | some i =>
    (0, { data with channel_data := fun c =>
      if c = chan then { data.channel_data c with data_rate := i }
      else data.channel_data c })
  | none => (-EINVAL, data)

/-! ### ads1015_read_raw (lines 405-472)

`sign_extend32 v i` sign-extends bit `i` of `v` into an `Int`, as the
kernel helper does.  The environment supplies the outcomes of the purely
external collaborators: whether the kfifo buffer is enabled, the result of
`iio_device_claim_direct_mode`, and the two `ads1015_set_power_state`
calls (already normalized to `ret < 0 ? ret : 0`). -/

def sign_extend32 (v : Nat) (i : Nat) : Int :=
  let m := v % 2 ^ (i + 1)
  if m < 2 ^ i then (m : Int) else (m : Int) - 2 ^ (i + 1)

inductive IIOMask where
  | raw
  | scale
  | sampfreq
  | other
deriving Repr, DecidableEq

structure ReadRawEnv where
  buffer_enabled : Bool
  claim_direct : Int
  power_on_ret : Int
  power_off_ret : Int

structure ReadRawOut where
  ret : Int
  val : Int
  val2 : Int
  data : AdsState
  rm : Regmap
  sleep_us : Nat
  trace : List BusOp

def ads1015_read_raw (data : AdsState) (rm : Regmap) (chan : ChanSpec)
    (mask : IIOMask) (env : ReadRawEnv) : ReadRawOut :=
  match mask with
  | .raw =>
    -- cannot read directly if buffered capture enabled
    if env.buffer_enabled then
      ⟨-EAGAIN, 0, 0, data, rm, 0, []⟩
    else if env.claim_direct ≠ 0 then
      ⟨env.claim_direct, 0, 0, data, rm, 0, []⟩
    else if env.power_on_ret < 0 then
      ⟨env.power_on_ret, 0, 0, data, rm, 0, []⟩
    else
      let r := ads1015_get_adc_result data rm (chan.address : Int)
      match r.res with
      | .error e => ⟨e, 0, 0, r.data, r.rm, r.sleep_us, r.trace⟩
      | .ok v =>
        let sval := sign_extend32 (v >>> chan.shift) (15 - chan.shift)
        if env.power_off_ret < 0 then
          ⟨env.power_off_ret, sval, 0, r.data, r.rm, r.sleep_us, r.trace⟩
        else
          ⟨IIO_VAL_INT, sval, 0, r.data, r.rm, r.sleep_us, r.trace⟩
  | .scale =>
    let idx := (data.channel_data chan.address).pga
    ⟨IIO_VAL_FRACTIONAL_LOG2, ads1015_fullscale_range idx,
      ((chan.realbits : Int) - 1), data, rm, 0, []⟩
  | .sampfreq =>
    let idx := (data.channel_data chan.address).data_rate
    ⟨IIO_VAL_INT, (data.data_rate idx : Int), 0, data, rm, 0, []⟩
  | .other => ⟨-EINVAL, 0, 0, data, rm, 0, []⟩

/-! ### Mode switching and power transitions (lines 637-642, 910-931) -/

def ads1015_set_conv_mode (rm : Regmap) (mode : Nat) : Except Int Regmap :=
  regmap_update_bits rm ADS1015_CFG_REG ADS1015_CFG_MOD_MASK
    (mode <<< ADS1015_CFG_MOD_SHIFT)

def ads1015_runtime_resume (data : AdsState) (rm : Regmap) :
    Int × AdsState × Regmap :=
  match ads1015_set_conv_mode rm ADS1015_CONTINUOUS with
  | .ok rm1 => (0, { data with conv_invalid := true }, rm1)
  | .error e => (e, data, rm)

/-! ### ads1015_set_conv_ready_pin (lines 644-657) -/

def ads1015_set_conv_ready_pin (rm : Regmap) : Int × Regmap :=
  match regmap_write rm ADS1015_LO_THRESH_REG 0 with
  | .error e => (e, rm)
  | .ok rm1 =>
    match regmap_write rm1 ADS1015_HI_THRESH_REG 0xFFFF with
    | .error e => (e, rm1)
    | .ok rm2 =>
      match regmap_update_bits rm2 ADS1015_CFG_REG ADS1015_CFG_COMP_QUE_MASK 0 with
      | .error e => (e, rm2)
      | .ok rm3 => (0, rm3)

/-! ### ads1015_irq_handler_thread (lines 668-740)

The environment carries the externally determined inputs: whether the
buffer is enabled at entry, and the active channel found in the scan
mask.  The sink push result does not influence driver state, so it is not
modelled. -/

structure IrqEnv where
  buffer_enabled : Bool
  scan_chan : Int

def ads1015_irq_handler_thread (data : AdsState) (rm : Regmap)
    (env : IrqEnv) : AdsState × Regmap × Nat :=
  if ¬ env.buffer_enabled then
    ({ data with use_buffer := false }, rm, 0)
  else if data.use_buffer then
    match regmap_read rm ADS1015_CONV_REG with
    | .error _ => (data, rm, 0)
    | .ok _ => ({ data with use_buffer := true }, rm, 0)
  else
    let r := ads1015_get_adc_result data rm env.scan_chan
    match r.res with
    | .error _ => (r.data, r.rm, r.sleep_us)
    | .ok _ => ({ r.data with use_buffer := true }, r.rm, r.sleep_us)

/-! ### Derived quantities used by the numerical claims -/

/-- The settling delay in microseconds the driver computes for a
transition from rate index `dr_old` to rate index `dr_new` against the
ADS1015 rate table (the body of lines 359-362). -/
def ads1015_conv_time (dr_old dr_new : Nat) : Nat :=
  let t := DIV_ROUND_UP USEC_PER_SEC (ads1015_data_rate dr_old) +
    DIV_ROUND_UP USEC_PER_SEC (ads1015_data_rate dr_new)
  t + t / 10

/-! ### Concrete fixtures used by witnesses and counterexamples -/

def exState : AdsState :=
  { channel_data := fun _ => ⟨2, 4⟩
    data_rate := ads1015_data_rate
    conv_invalid := false
    use_buffer := false }

def exStateInv : AdsState := { exState with conv_invalid := true }

def exStateBuf : AdsState := { exState with use_buffer := true }

def rmZero : Regmap := ⟨fun _ => 0, fun _ => none, fun _ => none⟩

def rmDefault : Regmap :=
  ⟨fun a => if a = ADS1015_CFG_REG then 0x8583 else 0,
    fun _ => none, fun _ => none⟩

def rmMatch : Regmap :=
  ⟨fun a => if a = ADS1015_CFG_REG then 1152 else 0,
    fun _ => none, fun _ => none⟩

def rmConvFail : Regmap :=
  ⟨fun _ => 0,
    fun a => if a = ADS1015_CONV_REG then some (-5) else none,
    fun _ => none⟩

def exChan : ChanSpec := ⟨0, 12, 4⟩

def exEnvBuf : ReadRawEnv := ⟨true, 0, 0, 0⟩

def exIrqOn : IrqEnv := ⟨true, 0⟩

def exIrqOff : IrqEnv := ⟨false, 0⟩

/-! ### Characterization of ads1015_get_adc_result on the fault-free path -/

/-- On a valid channel with a fault-free bus, one run of
`ads1015_get_adc_result` reads the configuration register, leaves the
configuration register holding the merged word, touches no other
register, ends with `conv_invalid` clear, sleeps exactly the settling
delay when a field differed or `conv_invalid` was set (and not at all
otherwise), performs the write exactly when a field differed, and returns
the conversion register. -/
theorem adc_result_spec (d : AdsState) (rm : Regmap) (chan : Int)
    (h0 : 0 ≤ chan) (h1 : chan < (ADS1015_CHANNELS : Int))
    (hr : rm.readErr ADS1015_CFG_REG = none)
    (hc : rm.readErr ADS1015_CONV_REG = none)
    (hw : rm.writeErr ADS1015_CFG_REG = none) :
    (ads1015_get_adc_result d rm chan).res = .ok (rm.regs ADS1015_CONV_REG) ∧
    (ads1015_get_adc_result d rm chan).rm.regs ADS1015_CFG_REG =
      ads1015_merged_cfg d (rm.regs ADS1015_CFG_REG) chan.toNat ∧
    (∀ a, a ≠ ADS1015_CFG_REG →
      (ads1015_get_adc_result d rm chan).rm.regs a = rm.regs a) ∧
    (ads1015_get_adc_result d rm chan).data.conv_invalid = false ∧
    (ads1015_get_adc_result d rm chan).data.channel_data = d.channel_data ∧
    (ads1015_get_adc_result d rm chan).data.use_buffer = d.use_buffer ∧
    (ads1015_get_adc_result d rm chan).sleep_us =
      (if rm.regs ADS1015_CFG_REG ≠
          ads1015_merged_cfg d (rm.regs ADS1015_CFG_REG) chan.toNat ∨
          d.conv_invalid = true
        then ads1015_settle_us d (rm.regs ADS1015_CFG_REG) chan.toNat
        else 0) ∧
    (ads1015_get_adc_result d rm chan).trace =
      [BusOp.read ADS1015_CFG_REG] ++
        (if rm.regs ADS1015_CFG_REG ≠
            ads1015_merged_cfg d (rm.regs ADS1015_CFG_REG) chan.toNat
          then [BusOp.write ADS1015_CFG_REG
            (ads1015_merged_cfg d (rm.regs ADS1015_CFG_REG) chan.toNat)]
          else []) ++
        [BusOp.read ADS1015_CONV_REG] := by
  have hnot : ¬ (chan < 0 ∨ (ADS1015_CHANNELS : Int) ≤ chan) := by
    rw [not_or]
    exact ⟨not_lt.mpr h0, not_le.mpr h1⟩
  by_cases hne : rm.regs ADS1015_CFG_REG =
      ads1015_merged_cfg d (rm.regs ADS1015_CFG_REG) chan.toNat
  · cases hinv : d.conv_invalid <;>
      simp [ads1015_get_adc_result, regmap_read, regmap_write, hr, hc, hw,
        hnot, hinv, if_neg (not_not_intro hne)] <;>
      exact hne
  · simp [ads1015_get_adc_result, regmap_read, regmap_write, hr, hc, hw,
      hnot, if_pos hne, hne]
    exact ⟨fun h => absurd h (by decide), fun a ha h => absurd h ha⟩

/-! ### C1: reconciliation algorithm of ads1015_get_adc_result -/

/-- C1: for every valid channel, on a fault-free bus,
`ads1015_get_adc_result` reads the configuration register; it leaves the
configuration register holding the merged word (old word with only
mux/gain/rate replaced from `channel_data[chan]`), writing it exactly
when a field differed; whenever a field differed or `conv_invalid` was
already set it sleeps for the settling delay
`ceil(1e6/rate_hz(old_rate)) + ceil(1e6/rate_hz(new_rate))` inflated by
10 percent and ends with `conv_invalid` clear; and it finally reads and
returns the conversion register. -/
theorem C1_get_adc_result_reconciliation (d : AdsState) (rm : Regmap)
    (chan : Int)
    (h0 : 0 ≤ chan) (h1 : chan < (ADS1015_CHANNELS : Int))
    (hr : rm.readErr ADS1015_CFG_REG = none)
    (hc : rm.readErr ADS1015_CONV_REG = none)
    (hw : rm.writeErr ADS1015_CFG_REG = none) :
    (ads1015_get_adc_result d rm chan).res = .ok (rm.regs ADS1015_CONV_REG) ∧
    (ads1015_get_adc_result d rm chan).rm.regs ADS1015_CFG_REG =
      ads1015_merged_cfg d (rm.regs ADS1015_CFG_REG) chan.toNat ∧
    (∀ a, a ≠ ADS1015_CFG_REG →
      (ads1015_get_adc_result d rm chan).rm.regs a = rm.regs a) ∧
    (ads1015_get_adc_result d rm chan).data.conv_invalid = false ∧
    (ads1015_get_adc_result d rm chan).data.channel_data = d.channel_data ∧
    (ads1015_get_adc_result d rm chan).data.use_buffer = d.use_buffer ∧
    (ads1015_get_adc_result d rm chan).sleep_us =
      (if rm.regs ADS1015_CFG_REG ≠
          ads1015_merged_cfg d (rm.regs ADS1015_CFG_REG) chan.toNat ∨
          d.conv_invalid = true
        then ads1015_settle_us d (rm.regs ADS1015_CFG_REG) chan.toNat
        else 0) ∧
    (ads1015_get_adc_result d rm chan).trace =
      [BusOp.read ADS1015_CFG_REG] ++
        (if rm.regs ADS1015_CFG_REG ≠
            ads1015_merged_cfg d (rm.regs ADS1015_CFG_REG) chan.toNat
          then [BusOp.write ADS1015_CFG_REG
            (ads1015_merged_cfg d (rm.regs ADS1015_CFG_REG) chan.toNat)]
          else []) ++
        [BusOp.read ADS1015_CONV_REG] :=
  adc_result_spec d rm chan h0 h1 hr hc hw

/-- Witness for C1 at channel 0 with the power-on default configuration
word 0x8583 in the register device. -/
theorem C1_witness :
    (ads1015_get_adc_result exState rmDefault 0).res =
      .ok (rmDefault.regs ADS1015_CONV_REG) :=
  (C1_get_adc_result_reconciliation exState rmDefault 0 (by decide)
    (by decide) rfl rfl rfl).1

/-! ### C2: delay on change, no delay when current -/

/-- C2 counterexample: with the configuration register already matching
channel 0's desired word but `conv_invalid` set (as after a runtime
resume), the acquisition performs no configuration write yet still
sleeps 1375 microseconds, refuting the unconditional no-delay half of
the claim. -/
theorem C2_counterexample :
    rmMatch.regs ADS1015_CFG_REG =
      ads1015_merged_cfg exStateInv (rmMatch.regs ADS1015_CFG_REG)
        ((0 : Int)).toNat ∧
    (ads1015_get_adc_result exStateInv rmMatch 0).trace =
      [BusOp.read ADS1015_CFG_REG, BusOp.read ADS1015_CONV_REG] ∧
    (ads1015_get_adc_result exStateInv rmMatch 0).sleep_us = 1375 ∧
    (ads1015_get_adc_result exStateInv rmMatch 0).sleep_us ≠ 0 := by
  decide

/-- C2 amended: on a fault-free bus, an acquisition whose merged
configuration word differs from the current one sleeps exactly the
computed settling delay, and an acquisition on an already-current
configuration with `conv_invalid` clear sleeps not at all. -/
theorem C2_delay_iff_reconfigured (d : AdsState) (rm : Regmap) (chan : Int)
    (h0 : 0 ≤ chan) (h1 : chan < (ADS1015_CHANNELS : Int))
    (hr : rm.readErr ADS1015_CFG_REG = none)
    (hc : rm.readErr ADS1015_CONV_REG = none)
    (hw : rm.writeErr ADS1015_CFG_REG = none) :
    (rm.regs ADS1015_CFG_REG ≠
        ads1015_merged_cfg d (rm.regs ADS1015_CFG_REG) chan.toNat →
      (ads1015_get_adc_result d rm chan).sleep_us =
        ads1015_settle_us d (rm.regs ADS1015_CFG_REG) chan.toNat) ∧
    (rm.regs ADS1015_CFG_REG =
        ads1015_merged_cfg d (rm.regs ADS1015_CFG_REG) chan.toNat →
      d.conv_invalid = false →
      (ads1015_get_adc_result d rm chan).sleep_us = 0) := by
  have h := (adc_result_spec d rm chan h0 h1 hr hc hw).2.2.2.2.2.2.1
  constructor
  · intro hne
    rw [h, if_pos (Or.inl hne)]
  · intro heq hinv
    rw [h, if_neg]
    rw [not_or]
    exact ⟨not_not_intro heq, by simp [hinv]⟩

/-- Witness for C2 at channel 0: the all-zero configuration word differs
from the desired one, so the acquisition sleeps the settling delay. -/
theorem C2_witness :
    (ads1015_get_adc_result exState rmZero 0).sleep_us =
      ads1015_settle_us exState (rmZero.regs ADS1015_CFG_REG)
        ((0 : Int)).toNat :=
  (C2_delay_iff_reconfigured exState rmZero 0 (by decide) (by decide)
    rfl rfl rfl).1 (by decide)

/-! ### C8: the 128 Hz to 3300 Hz settling delay -/

/-- C8 counterexample: the pre-inflation sum for the 128 Hz to 3300 Hz
transition is 8117 microseconds, not 8113, and the driver's 10 percent
inflation rounds down (8928 microseconds), one less than the
rounded-up value 8929 the claim specifies. -/
theorem C8_counterexample :
    ads1015_data_rate 0 = 128 ∧ ads1015_data_rate 6 = 3300 ∧
    DIV_ROUND_UP USEC_PER_SEC 128 + DIV_ROUND_UP USEC_PER_SEC 3300 = 8117 ∧
    (8117 : Nat) ≠ 8113 ∧
    ads1015_conv_time 0 6 = 8928 ∧
    (8117 * 11 + 9) / 10 = 8929 ∧
    ads1015_conv_time 0 6 ≠ (8117 * 11 + 9) / 10 := by
  decide

/-- C8 amended: the delay for the transition from the 128 Hz rate index
to the 3300 Hz rate index is `ceil(1e6/128) + ceil(1e6/3300) = 8117`
microseconds inflated by 10 percent rounded down, i.e.
`8117 + 8117 / 10 = 8928` microseconds, and this is exactly the
quantity the acquisition path computes. -/
theorem C8_delay_128_3300 :
    ads1015_conv_time 0 6 =
      (DIV_ROUND_UP USEC_PER_SEC (ads1015_data_rate 0) +
        DIV_ROUND_UP USEC_PER_SEC (ads1015_data_rate 6)) +
      (DIV_ROUND_UP USEC_PER_SEC (ads1015_data_rate 0) +
        DIV_ROUND_UP USEC_PER_SEC (ads1015_data_rate 6)) / 10 ∧
    ads1015_conv_time 0 6 = 8117 + 8117 / 10 ∧
    ads1015_conv_time 0 6 = 8928 ∧
    ads1015_settle_us { exState with channel_data := fun _ => ⟨2, 6⟩ } 0 0 =
      ads1015_conv_time 0 6 := by
  decide

/-! ### C3: use_buffer transitions of the capture pipeline -/

/-- The acquisition routine never touches the `use_buffer` flag. -/
theorem adc_preserves_use_buffer (d : AdsState) (rm : Regmap) (chan : Int) :
    (ads1015_get_adc_result d rm chan).data.use_buffer = d.use_buffer := by
  simp only [ads1015_get_adc_result]
  repeat' split <;> try rfl

/-- C3 counterexample: with buffering enabled and `use_buffer` set, a
failed fast-path read of the conversion register leaves `use_buffer`
true, so the next cycle retries the fast path; the claimed reset to
false does not happen. -/
theorem C3_counterexample :
    exStateBuf.use_buffer = true ∧
    exIrqOn.buffer_enabled = true ∧
    rmConvFail.readErr ADS1015_CONV_REG = some (-5) ∧
    (ads1015_irq_handler_thread exStateBuf rmConvFail exIrqOn).1.use_buffer =
      true := by
  decide

/-- C3 amended: the handler resets `use_buffer` to false when it runs
with buffering disabled; a successful cycle on either path sets it true;
a failed full-path cycle leaves it false; but a failed fast-path read
leaves `use_buffer` true, so the fast path resumes without a forced
full-path cycle. -/
theorem C3_use_buffer_transitions (d : AdsState) (rm : Regmap)
    (env : IrqEnv) :
    (env.buffer_enabled = false →
      (ads1015_irq_handler_thread d rm env).1.use_buffer = false) ∧
    (env.buffer_enabled = true → d.use_buffer = true →
      rm.readErr ADS1015_CONV_REG = none →
      (ads1015_irq_handler_thread d rm env).1.use_buffer = true) ∧
    (env.buffer_enabled = true → d.use_buffer = true → ∀ e,
      rm.readErr ADS1015_CONV_REG = some e →
      (ads1015_irq_handler_thread d rm env).1.use_buffer = true) ∧
    (env.buffer_enabled = true → d.use_buffer = false → ∀ v,
      (ads1015_get_adc_result d rm env.scan_chan).res = .ok v →
      (ads1015_irq_handler_thread d rm env).1.use_buffer = true) ∧
    (env.buffer_enabled = true → d.use_buffer = false → ∀ e,
      (ads1015_get_adc_result d rm env.scan_chan).res = .error e →
      (ads1015_irq_handler_thread d rm env).1.use_buffer = false) := by
  refine ⟨?_, ?_, ?_, ?_, ?_⟩
  · intro he
    simp [ads1015_irq_handler_thread, he]
  · intro he hub hc
    simp [ads1015_irq_handler_thread, he, hub, regmap_read, hc]
  · intro he hub e hc
    simp [ads1015_irq_handler_thread, he, hub, regmap_read, hc]
  · intro he hub v hv
    simp [ads1015_irq_handler_thread, he, hub, hv]
  · intro he hub e hv
    simp [ads1015_irq_handler_thread, he, hub, hv,
      adc_preserves_use_buffer]

/-- Witness for C3: the handler invoked while buffering is disabled
clears `use_buffer`. -/
theorem C3_witness :
    (ads1015_irq_handler_thread exStateBuf rmDefault exIrqOff).1.use_buffer =
      false :=
  (C3_use_buffer_transitions exStateBuf rmDefault exIrqOff).1 rfl

/-! ### C4: runtime resume forces conversion invalidation -/

/-- C4: a successful runtime resume switches the device to continuous
mode and sets `conv_invalid`, whatever the configuration word was; a
failed mode switch propagates the error and leaves the state, including
`conv_invalid`, untouched. -/
theorem C4_runtime_resume (d : AdsState) (rm : Regmap) :
    (∀ rm1, ads1015_set_conv_mode rm ADS1015_CONTINUOUS = .ok rm1 →
      ads1015_runtime_resume d rm = (0, { d with conv_invalid := true }, rm1)) ∧
    (∀ e, ads1015_set_conv_mode rm ADS1015_CONTINUOUS = .error e →
      ads1015_runtime_resume d rm = (e, d, rm)) := by
  constructor
  · intro rm1 h
    simp [ads1015_runtime_resume, h]
  · intro e h
    simp [ads1015_runtime_resume, h]

/-- The register device after the resume witness run: the mode bit of
the default configuration word 0x8583 cleared to continuous, 0x8483. -/
def rmDefaultCont : Regmap :=
  { rmDefault with regs := fun a =>
      if a = ADS1015_CFG_REG then 0x8483 else rmDefault.regs a }

/-- Witness for C4 from the power-on default configuration word. -/
theorem C4_witness :
    ads1015_runtime_resume exState rmDefault =
      (0, { exState with conv_invalid := true }, rmDefaultCont) :=
  (C4_runtime_resume exState rmDefault).1 rmDefaultCont (by rfl)

/-! ### C7: direct raw read while buffering is enabled -/

/-- C7: a raw read issued while buffered capture is enabled returns
`-EAGAIN` with the driver state and register device untouched and no
bus operation performed. -/
theorem C7_read_raw_busy (d : AdsState) (rm : Regmap) (chan : ChanSpec)
    (env : ReadRawEnv) (h : env.buffer_enabled = true) :
    ads1015_read_raw d rm chan .raw env =
      ⟨-EAGAIN, 0, 0, d, rm, 0, []⟩ := by
  simp [ads1015_read_raw, h]

/-- Witness for C7. -/
theorem C7_witness :
    ads1015_read_raw exState rmDefault exChan .raw exEnvBuf =
      ⟨-EAGAIN, 0, 0, exState, rmDefault, 0, []⟩ :=
  C7_read_raw_busy exState rmDefault exChan exEnvBuf rfl

/-! ### C10: set_data_rate with a rate not in the table -/

/-- C10: when the requested rate matches no entry of the chip's rate
table, `ads1015_set_data_rate` returns `-EINVAL` and the whole
configuration store is unchanged. -/
theorem C10_set_data_rate_invalid (d : AdsState) (chan rate : Nat)
    (h : ∀ i, i < 8 → d.data_rate i ≠ rate) :
    ads1015_set_data_rate d chan rate = (-EINVAL, d) := by
  have hnone : (List.range 8).find? (fun i => d.data_rate i == rate) = none := by
    rw [List.find?_eq_none]
    intro i hi
    simpa using h i (List.mem_range.mp hi)
  simp only [ads1015_set_data_rate, hnone]

/-- Witness for C10: 100 Hz is not an ADS1015 rate. -/
theorem C10_witness :
    ads1015_set_data_rate exState 0 100 = (-EINVAL, exState) :=
  C10_set_data_rate_invalid exState 0 100 (by decide)

/-! ### C5: set_scale matches by exact equality only -/

/-- C5: `ads1015_set_scale` accepts a value only by exact equality with a
gain-table entry: if the computed full-scale value matches no entry it
returns `-EINVAL` with the state (hence the stored pga index) unchanged,
and whenever it succeeds the stored index's table entry equals the
computed full-scale value exactly. -/
theorem C5_set_scale_exact_match (d : AdsState) (chan : ChanSpec)
    (scale uscale : Int) :
    ((∀ i, i < 8 →
        ads1015_fullscale_range i ≠ ads1015_fullscale chan scale uscale) →
      ads1015_set_scale d chan scale uscale = (-EINVAL, d)) ∧
    ((ads1015_set_scale d chan scale uscale).1 = 0 →
      ads1015_fullscale_range
        (((ads1015_set_scale d chan scale uscale).2.channel_data
          chan.address).pga) =
        ads1015_fullscale chan scale uscale) := by
  constructor
  · intro h
    have hnone : (List.range 8).find?
        (fun i => ads1015_fullscale_range i ==
          ads1015_fullscale chan scale uscale) = none := by
      rw [List.find?_eq_none]
      intro i hi
      simpa using h i (List.mem_range.mp hi)
    simp only [ads1015_set_scale, hnone]
  · cases hfind : (List.range 8).find?
        (fun i => ads1015_fullscale_range i ==
          ads1015_fullscale chan scale uscale) with
    | none =>
      intro h0
      simp only [ads1015_set_scale, hfind] at h0
      exact absurd h0 (by decide)
    | some j =>
      intro _
      have hpj := List.find?_some hfind
      simp only [beq_iff_eq] at hpj
      simp only [ads1015_set_scale, hfind]
      simpa using hpj

/-- Witness for C5: a 5000 mV full-scale request (scale 2, microscale
441407 with 12-bit results) matches no gain-table entry. -/
theorem C5_witness :
    ads1015_set_scale exState exChan 2 441407 = (-EINVAL, exState) :=
  (C5_set_scale_exact_match exState exChan 2 441407).1 (by decide)

/-! ### C9: the ready-pin setup sequence -/

/-- One successful `regmap_update_bits` call: the field is replaced, no
other register changes, and the fault model is untouched. -/
theorem update_bits_ok (rm : Regmap) (addr mask val : Nat)
    (hr : rm.readErr addr = none) (hw : rm.writeErr addr = none) :
    ∃ rm1, regmap_update_bits rm addr mask val = .ok rm1 ∧
      rm1.regs addr = (rm.regs addr &&& compl32 mask) ||| (val &&& mask) ∧
      (∀ a, a ≠ addr → rm1.regs a = rm.regs a) ∧
      rm1.readErr = rm.readErr ∧ rm1.writeErr = rm.writeErr := by
  simp only [regmap_update_bits, regmap_read, regmap_write, hr, hw]
  by_cases hq : (rm.regs addr &&& compl32 mask) ||| (val &&& mask) = rm.regs addr
  · simp [hq]
  · simp only [hq, if_neg]
    refine ⟨_, rfl, ?_, ?_, rfl, rfl⟩
    · simp
    · intro a ha
      simp [ha]

/-- C9 counterexample: starting from the power-on default configuration
word 0x8583, whose comparator-queue field holds the disable value 3,
the ready-pin setup succeeds and leaves the comparator-queue field at 0
(assert after one conversion), not at the disable value
`ADS1015_CFG_COMP_DISABLE = 3`: the sequence selects the ready-pin
comparator mode rather than disabling the comparator queue. -/
theorem C9_counterexample :
    rmDefault.regs ADS1015_CFG_REG &&& ADS1015_CFG_COMP_QUE_MASK =
      ADS1015_CFG_COMP_DISABLE ∧
    (ads1015_set_conv_ready_pin rmDefault).1 = 0 ∧
    (ads1015_set_conv_ready_pin rmDefault).2.regs ADS1015_CFG_REG &&&
      ADS1015_CFG_COMP_QUE_MASK = 0 ∧
    (ads1015_set_conv_ready_pin rmDefault).2.regs ADS1015_CFG_REG &&&
      ADS1015_CFG_COMP_QUE_MASK ≠ ADS1015_CFG_COMP_DISABLE := by
  decide

/-- C9 amended: `ads1015_set_conv_ready_pin` writes 0 to the
low-threshold register and 0xFFFF to the high-threshold register, then
clears the comparator-queue field of the configuration register to 0
(ready-pin mode, not the disable value); a failure of either threshold
write is propagated and aborts the remaining steps, leaving the
configuration register untouched. -/
theorem C9_ready_pin_sequence (rm : Regmap) :
    (∀ e, rm.writeErr ADS1015_LO_THRESH_REG = some e →
      ads1015_set_conv_ready_pin rm = (e, rm)) ∧
    (rm.writeErr ADS1015_LO_THRESH_REG = none →
      ∀ e, rm.writeErr ADS1015_HI_THRESH_REG = some e →
      (ads1015_set_conv_ready_pin rm).1 = e ∧
      (ads1015_set_conv_ready_pin rm).2.regs ADS1015_CFG_REG =
        rm.regs ADS1015_CFG_REG) ∧
    (rm.writeErr ADS1015_LO_THRESH_REG = none →
      rm.writeErr ADS1015_HI_THRESH_REG = none →
      rm.readErr ADS1015_CFG_REG = none →
      rm.writeErr ADS1015_CFG_REG = none →
      (ads1015_set_conv_ready_pin rm).1 = 0 ∧
      (ads1015_set_conv_ready_pin rm).2.regs ADS1015_LO_THRESH_REG = 0 ∧
      (ads1015_set_conv_ready_pin rm).2.regs ADS1015_HI_THRESH_REG = 0xFFFF ∧
      (ads1015_set_conv_ready_pin rm).2.regs ADS1015_CFG_REG =
        rm.regs ADS1015_CFG_REG &&& compl32 ADS1015_CFG_COMP_QUE_MASK ∧
      (ads1015_set_conv_ready_pin rm).2.regs ADS1015_CFG_REG &&&
        ADS1015_CFG_COMP_QUE_MASK = 0) := by
  refine ⟨?_, ?_, ?_⟩
  · intro e h
    simp [ads1015_set_conv_ready_pin, regmap_write, h]
  · intro h0 e h
    have hrm1 : regmap_write rm ADS1015_LO_THRESH_REG 0 =
        .ok { rm with regs := fun a =>
          if a = ADS1015_LO_THRESH_REG then 0 else rm.regs a } := by
      simp [regmap_write, h0]
    simp only [ads1015_set_conv_ready_pin, hrm1]
    simp only [regmap_write, h]
    exact ⟨trivial, by rw [if_neg (by decide)]⟩
  · intro h0 h1 h2 h3
    obtain ⟨rm1, hw1⟩ : ∃ rm1, regmap_write rm ADS1015_LO_THRESH_REG 0 = .ok rm1 := by
      simp [regmap_write, h0]
    obtain ⟨rm2, hw2⟩ : ∃ rm2, regmap_write rm1 ADS1015_HI_THRESH_REG 0xFFFF = .ok rm2 := by
      have : rm1.writeErr = rm.writeErr := by
        simp only [regmap_write, h0] at hw1
        cases hw1
        rfl
      simp [regmap_write, this, h1]
    have hrm1 : rm1 = { rm with regs := fun a =>
        if a = ADS1015_LO_THRESH_REG then 0 else rm.regs a } := by
      simp only [regmap_write, h0] at hw1
      cases hw1
      rfl
    have hrm2 : rm2 = { rm with regs := fun a =>
        if a = ADS1015_HI_THRESH_REG then 0xFFFF
        else if a = ADS1015_LO_THRESH_REG then 0 else rm.regs a } := by
      subst hrm1
      simp only [regmap_write, h1] at hw2
      cases hw2
      rfl
    obtain ⟨rm3, hu, hcfg, hother, _, _⟩ :=
      update_bits_ok rm2 ADS1015_CFG_REG ADS1015_CFG_COMP_QUE_MASK 0
        (by rw [hrm2]; exact h2) (by rw [hrm2]; exact h3)
    have hrun : ads1015_set_conv_ready_pin rm = (0, rm3) := by
      simp only [ads1015_set_conv_ready_pin, hw1, hw2, hu]
    rw [hrun]
    have hcfg2 : rm2.regs ADS1015_CFG_REG = rm.regs ADS1015_CFG_REG := by
      rw [hrm2]
      show (if ADS1015_CFG_REG = ADS1015_HI_THRESH_REG then 65535
        else if ADS1015_CFG_REG = ADS1015_LO_THRESH_REG then 0
        else rm.regs ADS1015_CFG_REG) = rm.regs ADS1015_CFG_REG
      rw [if_neg (by decide), if_neg (by decide)]
    refine ⟨rfl, ?_, ?_, ?_, ?_⟩
    · rw [hother ADS1015_LO_THRESH_REG (by decide), hrm2]
      show (if ADS1015_LO_THRESH_REG = ADS1015_HI_THRESH_REG then 65535
        else if ADS1015_LO_THRESH_REG = ADS1015_LO_THRESH_REG then 0
        else rm.regs ADS1015_LO_THRESH_REG) = 0
      rw [if_neg (by decide), if_pos rfl]
    · rw [hother ADS1015_HI_THRESH_REG (by decide), hrm2]
      show (if ADS1015_HI_THRESH_REG = ADS1015_HI_THRESH_REG then 65535
        else if ADS1015_HI_THRESH_REG = ADS1015_LO_THRESH_REG then 0
        else rm.regs ADS1015_HI_THRESH_REG) = 65535
      rw [if_pos rfl]
    · rw [hcfg, hcfg2]
      simp
    · rw [hcfg, hcfg2]
      simp only [Nat.zero_and, Nat.or_zero, Nat.and_assoc]
      simp [show compl32 ADS1015_CFG_COMP_QUE_MASK &&&
        ADS1015_CFG_COMP_QUE_MASK = 0 from by decide]

/-- Witness for C9 on a fault-free register device. -/
theorem C9_witness :
    (ads1015_set_conv_ready_pin rmZero).2.regs ADS1015_HI_THRESH_REG =
      0xFFFF :=
  ((C9_ready_pin_sequence rmZero).2.2 rfl rfl rfl rfl).2.2.1

/-! ### C6: setter/getter round-trips -/

/-- C6: for every channel, a scale value that exactly represents a
gain-table entry round-trips through `set_scale` and the scale read
(returned as value over `2^(realbits-1)`), and a rate present in the
chip's rate table round-trips through `set_data_rate` and the
sample-rate read; repeating the identical write leaves the stored state
unchanged. -/
theorem C6_roundtrip (d : AdsState) (chan : ChanSpec) (rm : Regmap)
    (env : ReadRawEnv) :
    (∀ scale uscale : Int, ∀ i, i < 8 →
      (scale * 1000000 + uscale) * 2 ^ (chan.realbits - 1) =
        ads1015_fullscale_range i * 1000000 →
      (ads1015_set_scale d chan scale uscale).1 = 0 ∧
      (ads1015_read_raw (ads1015_set_scale d chan scale uscale).2 rm chan
          .scale env).ret = IIO_VAL_FRACTIONAL_LOG2 ∧
      (ads1015_read_raw (ads1015_set_scale d chan scale uscale).2 rm chan
          .scale env).val * 1000000 =
        (scale * 1000000 + uscale) * 2 ^ (chan.realbits - 1) ∧
      (ads1015_read_raw (ads1015_set_scale d chan scale uscale).2 rm chan
          .scale env).val2 = (chan.realbits : Int) - 1 ∧
      ads1015_set_scale (ads1015_set_scale d chan scale uscale).2 chan
          scale uscale = (0, (ads1015_set_scale d chan scale uscale).2)) ∧
    (∀ rate : Nat, ∀ i, i < 8 → d.data_rate i = rate →
      (ads1015_set_data_rate d chan.address rate).1 = 0 ∧
      (ads1015_read_raw (ads1015_set_data_rate d chan.address rate).2 rm chan
          .sampfreq env).ret = IIO_VAL_INT ∧
      (ads1015_read_raw (ads1015_set_data_rate d chan.address rate).2 rm chan
          .sampfreq env).val = (rate : Int) ∧
      ads1015_set_data_rate (ads1015_set_data_rate d chan.address rate).2
          chan.address rate =
        (0, (ads1015_set_data_rate d chan.address rate).2)) := by
  constructor
  · intro scale uscale i hi hexact
    have hfs : ads1015_fullscale chan scale uscale =
        ads1015_fullscale_range i := by
      unfold ads1015_fullscale div_s64
      rw [hexact]
      exact Int.mul_tdiv_cancel _ (by norm_num)
    have hex : ∃ x ∈ List.range 8,
        (ads1015_fullscale_range x ==
          ads1015_fullscale chan scale uscale) = true :=
      ⟨i, List.mem_range.mpr hi, by simp [hfs]⟩
    obtain ⟨j, hj⟩ := Option.isSome_iff_exists.mp (List.find?_isSome.mpr hex)
    have hpj := List.find?_some hj
    rw [beq_iff_eq] at hpj
    refine ⟨?_, ?_, ?_, ?_, ?_⟩
    · simp only [ads1015_set_scale, hj]
    · simp only [ads1015_set_scale, hj, ads1015_read_raw]
    · simp only [ads1015_set_scale, hj, ads1015_read_raw]
      simp
      rw [hpj, hfs, ← hexact]
    · simp only [ads1015_set_scale, hj, ads1015_read_raw]
    · simp only [ads1015_set_scale, hj]
      refine congrArg (Prod.mk 0) ?_
      congr 1
      funext c
      by_cases hc : c = chan.address
      · subst hc
        simp
      · simp [hc]
  · intro rate i hi hexact
    have hex : ∃ x ∈ List.range 8, (d.data_rate x == rate) = true :=
      ⟨i, List.mem_range.mpr hi, by simp [hexact]⟩
    obtain ⟨j, hj⟩ := Option.isSome_iff_exists.mp (List.find?_isSome.mpr hex)
    have hpj := List.find?_some hj
    rw [beq_iff_eq] at hpj
    refine ⟨?_, ?_, ?_, ?_⟩
    · simp only [ads1015_set_data_rate, hj]
    · simp only [ads1015_set_data_rate, hj, ads1015_read_raw]
    · simp only [ads1015_set_data_rate, hj, ads1015_read_raw]
      simp
      rw [hpj]
    · simp only [ads1015_set_data_rate, hj]
      refine congrArg (Prod.mk 0) ?_
      congr 1
      funext c
      by_cases hc : c = chan.address
      · subst hc
        simp
      · simp [hc]

/-- Witness for C6: scale 3 mV/lsb (full-scale 6144) and rate 1600 Hz
round-trip on channel 0. -/
theorem C6_witness :
    (ads1015_set_scale exState exChan 3 0).1 = 0 ∧
    (ads1015_read_raw (ads1015_set_scale exState exChan 3 0).2 rmZero exChan
        .scale exEnvBuf).val * 1000000 =
      (3 * 1000000 + 0) * 2 ^ (exChan.realbits - 1) ∧
    (ads1015_set_data_rate exState exChan.address 1600).1 = 0 ∧
    (ads1015_read_raw (ads1015_set_data_rate exState exChan.address 1600).2
        rmZero exChan .sampfreq exEnvBuf).val = (1600 : Int) := by
  have h := C6_roundtrip exState exChan rmZero exEnvBuf
  have h1 := h.1 3 0 0 (by decide) (by decide)
  have h2 := h.2 1600 4 (by decide) (by decide)
  exact ⟨h1.1, h1.2.2.1, h2.1, h2.2.2.1⟩
